import Mathlib

/-!
Shallow embedding of `swmm_layer_builder.py` (SwmmLayerBuilderAlgorithm):
a QGIS Processing algorithm that maps an arbitrary input vector layer into
the SWMM schema of a given section, with per-field operator mapping,
auto-match by name, and per-section default fallbacks.

Attribute values (Python / QVariant) are modelled by `Value`; a feature is
its ordered field/value list plus an opaque geometry; a layer is its field
names plus its features.  Floats carry no arithmetic in this code (values
are only compared against None/'' and passed through), so they are modelled
exactly by `Rat`.
-/

namespace SwmmLayerBuilder

/-- A Python/QVariant attribute value as the transform sees it:
None, a string, an int literal, or a float literal. -/
inductive Value where
  | null
  | str (s : String)
  | int (n : Int)
  | real (q : Rat)
  deriving DecidableEq

/-- Semantic field type tags, the values of `def_qgis_fields_dict`
(the strings 'Double', 'String', 'Int', 'Bool', 'Date', 'Time'). -/
inductive FType where
  | Double
  | String
  | Int
  | Bool
  | Date
  | Time
  deriving DecidableEq

/-- QVariant type ids, the codomain of `type_map` in `processAlgorithm`. -/
inductive QVarType where
  | Double
  | String
  | Int
  | Bool
  | Date
  | Time
  deriving DecidableEq

/-- `type_map` from `processAlgorithm` (lines 106-113). -/
def type_map : FType → QVarType
  | .Double => .Double
  | .String => .String
  | .Int => .Int
  | .Bool => .Bool
  | .Date => .Date
  | .Time => .Time

/-- An input feature: its ordered (field name, value) pairs and its geometry,
kept opaque in the type parameter. -/
structure Feature (γ : Type) where
  fields : List (String × Value)
  geometry : γ
  deriving DecidableEq

/-- `feature.fields().names()`. -/
def Feature.names (f : Feature γ) : List String :=
  f.fields.map Prod.fst

/-- `feature[field_name]`: value of the first field with that name. -/
def Feature.value (f : Feature γ) (fieldName : String) : Option Value :=
  List.lookup fieldName f.fields

/-- An input vector layer: its field names and its features, in iteration
order (`input_layer.fields().names()` / `input_layer.getFeatures()`). -/
structure Layer (γ : Type) where
  fieldNames : List String
  features : List (Feature γ)
  deriving DecidableEq

/-- An output feature as written to the sink: geometry copied from the
input feature, plus the ordered attribute list (`setGeometry` /
`setAttributes` in `processAlgorithm` lines 137-139). -/
structure OutFeature (γ : Type) where
  geometry : γ
  attributes : List Value
  deriving DecidableEq

/-- The membership test `val in [None, '']` of `_value_from_feature`. -/
def isMissingVal : Value → Bool
  | .null => true
  | .str s => s = ""
  | _ => false

/-- `_value_from_feature(feature, field_name, default_val)` (lines 407-413):
`field_name` is `field_map.get(field)` (an `Option`, `none` when the dict
has no entry), and the Python truthiness test `if field_name` makes an
empty-string selection fall back to the default as well. -/
def value_from_feature (f : Feature γ) (fieldName : Option String)
    (defaultVal : Value) : Value :=
  match fieldName with
  | some fn =>
      if fn ≠ "" ∧ fn ∈ f.names then
        match f.value fn with
        | some val => if isMissingVal val then defaultVal else val
        | none => defaultVal
      else
        defaultVal
  | none => defaultVal

/-- Modelled from the spec: the Schema Registry `def_qgis_fields_dict`
(imported from `g_s_defaults`, a module absent from the sources) — for each
section, the ordered mapping from target field name to semantic type
(spec section 2, "Schema Registry").  The section set is the one the spec
enumerates (junctions, conduits, storage nodes, pumps, weirs, orifices,
outfalls, rain gauges, subcatchments); field names and their order follow
the per-section catalogs present in the source (`_defaults_for_section`,
`_field_definitions`); types are Double for numeric fields and String for
textual ones.  Indexing an unknown key is modelled as `none`. -/
def def_qgis_fields_dict (sect : String) : Option (List (String × FType)) :=
  if sect = "SUBCATCHMENTS" then some
    [("Name", .String), ("RainGage", .String), ("Outlet", .String),
     ("Area", .Double), ("Imperv", .Double), ("Width", .Double),
     ("Slope", .Double), ("CurbLen", .Double), ("SnowPack", .String),
     ("N_Imperv", .Double), ("N_Perv", .Double), ("S_Imperv", .Double),
     ("S_Perv", .Double), ("PctZero", .Double), ("RouteTo", .String),
     ("PctRouted", .Double), ("InfMethod", .String), ("SuctHead", .Double),
     ("Conductiv", .Double), ("InitDef", .Double), ("MaxRate", .Double),
     ("MinRate", .Double), ("Decay", .Double), ("DryTime", .Double),
     ("MaxInf", .Double), ("CurveNum", .Double)]
  else if sect = "JUNCTIONS" then some
    [("Name", .String), ("Elevation", .Double), ("MaxDepth", .Double),
     ("InitDepth", .Double), ("SurDepth", .Double), ("Aponded", .Double)]
  else if sect = "OUTFALLS" then some
    [("Name", .String), ("Elevation", .Double), ("Type", .String),
     ("FixedStage", .Double), ("Curve_TS", .String), ("FlapGate", .String),
     ("RouteTo", .String)]
  else if sect = "RAINGAGES" then some
    [("Name", .String), ("Format", .String), ("Interval", .String),
     ("SCF", .Double), ("DataSource", .String), ("SeriesName", .String),
     ("FileName", .String), ("StationID", .String), ("RainUnits", .String)]
  else if sect = "STORAGE" then some
    [("Name", .String), ("Elevation", .Double), ("MaxDepth", .Double),
     ("InitDepth", .Double), ("Type", .String), ("Curve", .String),
     ("Coeff", .Double), ("Exponent", .Double), ("Constant", .Double),
     ("MajorAxis", .Double), ("MinorAxis", .Double), ("SideSlope", .Double),
     ("SurfHeight", .Double), ("SurDepth", .Double), ("Fevap", .Double),
     ("Psi", .Double), ("Ksat", .Double), ("IMD", .Double)]
  else if sect = "CONDUITS" then some
    [("Name", .String), ("FromNode", .String), ("ToNode", .String),
     ("Length", .Double), ("Roughness", .Double), ("InOffset", .Double),
     ("OutOffset", .Double), ("InitFlow", .Double), ("MaxFlow", .Double),
     ("XsectShape", .String), ("Geom1", .Double), ("Geom2", .Double),
     ("Geom3", .Double), ("Geom4", .Double), ("Barrels", .Double),
     ("Culvert", .String), ("Shp_Trnsct", .String), ("Kentry", .Double),
     ("Kexit", .Double), ("Kavg", .Double), ("FlapGate", .String),
     ("Seepage", .Double)]
  else if sect = "ORIFICES" then some
    [("Name", .String), ("FromNode", .String), ("ToNode", .String),
     ("Type", .String), ("InOffset", .Double), ("Qcoeff", .Double),
     ("FlapGate", .String), ("CloseTime", .Double), ("XsectShape", .String),
     ("Height", .Double), ("Width", .Double)]
  else if sect = "PUMPS" then some
    [("Name", .String), ("FromNode", .String), ("ToNode", .String),
     ("PumpCurve", .String), ("Status", .String), ("Startup", .Double),
     ("Shutoff", .Double)]
  else if sect = "WEIRS" then some
    [("Name", .String), ("FromNode", .String), ("ToNode", .String),
     ("Type", .String), ("CrestHeigh", .Double), ("Qcoeff", .Double),
     ("FlapGate", .String), ("EndContrac", .Double), ("EndCoeff", .Double),
     ("Surcharge", .String), ("RoadWidth", .Double), ("RoadSurf", .String),
     ("CoeffCurve", .String), ("Height", .Double), ("Length", .Double),
     ("SideSlope", .Double)]
  else none

/-- `_defaults_for_section(section)` (lines 149-281), transcribed branch by
branch; Python int literals become `Value.int`, float literals `Value.real`.
The STORAGE branch and the final fallback index `def_qgis_fields_dict`
directly in the source (raising for an unknown key); they are modelled with
`getD []`, and every call from `processAlgorithm` happens after the
section's schema lookup has already succeeded. -/
def defaults_for_section (sect : String) : List (String × Value) :=
  if sect = "SUBCATCHMENTS" then
    [("Name", .str ""), ("RainGage", .str "*"), ("Outlet", .str ""),
     ("Area", .int 0), ("Imperv", .int 0), ("Width", .int 0),
     ("Slope", .real 0.5), ("CurbLen", .int 0), ("SnowPack", .str ""),
     ("N_Imperv", .real 0.01), ("N_Perv", .real 0.1), ("S_Imperv", .real 1.8),
     ("S_Perv", .int 3), ("PctZero", .int 0), ("RouteTo", .str "OUTLET"),
     ("PctRouted", .int 100), ("InfMethod", .str ""), ("SuctHead", .null),
     ("Conductiv", .null), ("InitDef", .null), ("MaxRate", .null),
     ("MinRate", .null), ("Decay", .null), ("DryTime", .null),
     ("MaxInf", .null), ("CurveNum", .null)]
  else if sect = "JUNCTIONS" then
    [("Name", .str ""), ("Elevation", .int 0), ("MaxDepth", .int 0),
     ("InitDepth", .int 0), ("SurDepth", .int 0), ("Aponded", .int 0)]
  else if sect = "OUTFALLS" then
    [("Name", .str ""), ("Elevation", .int 0), ("Type", .str "FREE"),
     ("FixedStage", .null), ("Curve_TS", .str ""), ("FlapGate", .str ""),
     ("RouteTo", .str "")]
  else if sect = "RAINGAGES" then
    [("Name", .str ""), ("Format", .str ""), ("Interval", .str ""),
     ("SCF", .real 1.0), ("DataSource", .str ""), ("SeriesName", .str ""),
     ("FileName", .str ""), ("StationID", .str ""), ("RainUnits", .str "")]
  else if sect = "STORAGE" then
    ((def_qgis_fields_dict "STORAGE").getD []).map
      (fun p => (p.1, if p.2 = FType.Double then Value.int 0 else Value.str ""))
  else if sect = "CONDUITS" then
    [("Name", .str ""), ("FromNode", .str ""), ("ToNode", .str ""),
     ("Length", .int 0), ("Roughness", .real 0.01), ("InOffset", .int 0),
     ("OutOffset", .int 0), ("InitFlow", .int 0), ("MaxFlow", .int 0),
     ("XsectShape", .str ""), ("Geom1", .int 0), ("Geom2", .int 0),
     ("Geom3", .int 0), ("Geom4", .int 0), ("Barrels", .int 1),
     ("Culvert", .str ""), ("Shp_Trnsct", .str ""), ("Kentry", .int 0),
     ("Kexit", .int 0), ("Kavg", .int 0), ("FlapGate", .str ""),
     ("Seepage", .int 0)]
  else if sect = "ORIFICES" then
    [("Name", .str ""), ("FromNode", .str ""), ("ToNode", .str ""),
     ("Type", .str ""), ("InOffset", .int 0), ("Qcoeff", .int 0),
     ("FlapGate", .str ""), ("CloseTime", .int 0), ("XsectShape", .str ""),
     ("Height", .int 0), ("Width", .int 0)]
  else if sect = "PUMPS" then
    [("Name", .str ""), ("FromNode", .str ""), ("ToNode", .str ""),
     ("PumpCurve", .str ""), ("Status", .str ""), ("Startup", .int 0),
     ("Shutoff", .int 0)]
  else if sect = "WEIRS" then
    [("Name", .str ""), ("FromNode", .str ""), ("ToNode", .str ""),
     ("Type", .str ""), ("CrestHeigh", .int 0), ("Qcoeff", .int 0),
     ("FlapGate", .str ""), ("EndContrac", .int 0), ("EndCoeff", .int 0),
     ("Surcharge", .str ""), ("RoadWidth", .int 0), ("RoadSurf", .str ""),
     ("CoeffCurve", .str ""), ("Height", .int 0), ("Length", .int 0),
     ("SideSlope", .int 0)]
  else
    ((def_qgis_fields_dict sect).getD []).map (fun p => (p.1, Value.null))

/-- One entry of `self.field_params`: (param_id, label, target_field,
required), as the tuples of `_field_definitions`. -/
structure FieldParam where
  paramId : String
  label : String
  targetField : String
  required : Bool
  deriving DecidableEq

/-- `_field_definitions(section)` (lines 283-405), transcribed branch by
branch; unknown sections get the empty list (line 405). -/
def field_definitions (sect : String) : List FieldParam :=
  if sect = "JUNCTIONS" then
    [⟨"NAME_FIELD", "Name field", "Name", true⟩,
     ⟨"ELEV_FIELD", "Elevation field", "Elevation", true⟩,
     ⟨"MAXDEPTH_FIELD", "MaxDepth field", "MaxDepth", true⟩,
     ⟨"INITDEPTH_FIELD", "InitDepth field", "InitDepth", false⟩,
     ⟨"SURDEPTH_FIELD", "SurDepth field", "SurDepth", false⟩,
     ⟨"APONDED_FIELD", "Aponded field", "Aponded", false⟩]
  else if sect = "OUTFALLS" then
    [⟨"NAME_FIELD", "Name field", "Name", true⟩,
     ⟨"ELEV_FIELD", "Elevation field", "Elevation", true⟩,
     ⟨"TYPE_FIELD", "Type field", "Type", true⟩,
     ⟨"FIXED_FIELD", "FixedStage field", "FixedStage", false⟩,
     ⟨"CURVE_FIELD", "Curve_TS field", "Curve_TS", false⟩,
     ⟨"FLAP_FIELD", "FlapGate field", "FlapGate", false⟩,
     ⟨"ROUTETO_FIELD", "RouteTo field", "RouteTo", false⟩]
  else if sect = "RAINGAGES" then
    [⟨"NAME_FIELD", "Name field", "Name", true⟩,
     ⟨"FORMAT_FIELD", "Format field", "Format", true⟩,
     ⟨"INTERVAL_FIELD", "Interval field", "Interval", true⟩,
     ⟨"SCF_FIELD", "SCF field", "SCF", false⟩,
     ⟨"DATASRC_FIELD", "DataSource field", "DataSource", false⟩,
     ⟨"SERIES_FIELD", "SeriesName field", "SeriesName", false⟩,
     ⟨"FILE_FIELD", "FileName field", "FileName", false⟩,
     ⟨"STATION_FIELD", "StationID field", "StationID", false⟩,
     ⟨"RAINUNITS_FIELD", "RainUnits field", "RainUnits", false⟩]
  else if sect = "STORAGE" then
    [⟨"NAME_FIELD", "Name field", "Name", true⟩,
     ⟨"ELEV_FIELD", "Elevation field", "Elevation", true⟩,
     ⟨"MAXDEPTH_FIELD", "MaxDepth field", "MaxDepth", true⟩,
     ⟨"INITDEPTH_FIELD", "InitDepth field", "InitDepth", false⟩,
     ⟨"TYPE_FIELD", "Type field", "Type", false⟩,
     ⟨"CURVE_FIELD", "Curve field", "Curve", false⟩,
     ⟨"COEFF_FIELD", "Coeff field", "Coeff", false⟩,
     ⟨"EXP_FIELD", "Exponent field", "Exponent", false⟩,
     ⟨"CONST_FIELD", "Constant field", "Constant", false⟩,
     ⟨"MAJORAX_FIELD", "MajorAxis field", "MajorAxis", false⟩,
     ⟨"MINORAX_FIELD", "MinorAxis field", "MinorAxis", false⟩,
     ⟨"SIDESLOPE_FIELD", "SideSlope field", "SideSlope", false⟩,
     ⟨"SURFHEIGHT_FIELD", "SurfHeight field", "SurfHeight", false⟩,
     ⟨"SURDEPTH_FIELD", "SurDepth field", "SurDepth", false⟩,
     ⟨"FEVAP_FIELD", "Fevap field", "Fevap", false⟩,
     ⟨"PSI_FIELD", "Psi field", "Psi", false⟩,
     ⟨"KSAT_FIELD", "Ksat field", "Ksat", false⟩,
     ⟨"IMD_FIELD", "IMD field", "IMD", false⟩]
  else if sect = "CONDUITS" then
    [⟨"NAME_FIELD", "Name field", "Name", true⟩,
     ⟨"FROM_FIELD", "FromNode field", "FromNode", true⟩,
     ⟨"TO_FIELD", "ToNode field", "ToNode", true⟩,
     ⟨"LENGTH_FIELD", "Length field", "Length", true⟩,
     ⟨"ROUGH_FIELD", "Roughness field", "Roughness", false⟩,
     ⟨"INOFF_FIELD", "InOffset field", "InOffset", false⟩,
     ⟨"OUTOFF_FIELD", "OutOffset field", "OutOffset", false⟩,
     ⟨"INITFLOW_FIELD", "InitFlow field", "InitFlow", false⟩,
     ⟨"MAXFLOW_FIELD", "MaxFlow field", "MaxFlow", false⟩,
     ⟨"XSECTSHAPE_FIELD", "XsectShape field", "XsectShape", false⟩,
     ⟨"GEOM1_FIELD", "Geom1 field", "Geom1", false⟩,
     ⟨"GEOM2_FIELD", "Geom2 field", "Geom2", false⟩,
     ⟨"GEOM3_FIELD", "Geom3 field", "Geom3", false⟩,
     ⟨"GEOM4_FIELD", "Geom4 field", "Geom4", false⟩,
     ⟨"BARRELS_FIELD", "Barrels field", "Barrels", false⟩,
     ⟨"CULVERT_FIELD", "Culvert field", "Culvert", false⟩,
     ⟨"SHPTRNS_FIELD", "Shp_Trnsct field", "Shp_Trnsct", false⟩,
     ⟨"KENTRY_FIELD", "Kentry field", "Kentry", false⟩,
     ⟨"KEXIT_FIELD", "Kexit field", "Kexit", false⟩,
     ⟨"KAVG_FIELD", "Kavg field", "Kavg", false⟩,
     ⟨"FLAP_FIELD", "FlapGate field", "FlapGate", false⟩,
     ⟨"SEEP_FIELD", "Seepage field", "Seepage", false⟩]
  else if sect = "ORIFICES" then
    [⟨"NAME_FIELD", "Name field", "Name", true⟩,
     ⟨"FROM_FIELD", "FromNode field", "FromNode", true⟩,
     ⟨"TO_FIELD", "ToNode field", "ToNode", true⟩,
     ⟨"TYPE_FIELD", "Type field", "Type", true⟩,
     ⟨"INOFF_FIELD", "InOffset field", "InOffset", false⟩,
     ⟨"QCOEFF_FIELD", "Qcoeff field", "Qcoeff", false⟩,
     ⟨"FLAP_FIELD", "FlapGate field", "FlapGate", false⟩,
     ⟨"CLOSETIME_FIELD", "CloseTime field", "CloseTime", false⟩,
     ⟨"XSECTSHAPE_FIELD", "XsectShape field", "XsectShape", false⟩,
     ⟨"HEIGHT_FIELD", "Height field", "Height", false⟩,
     ⟨"WIDTH_FIELD", "Width field", "Width", false⟩]
  else if sect = "PUMPS" then
    [⟨"NAME_FIELD", "Name field", "Name", true⟩,
     ⟨"FROM_FIELD", "FromNode field", "FromNode", true⟩,
     ⟨"TO_FIELD", "ToNode field", "ToNode", true⟩,
     ⟨"CURVE_FIELD", "PumpCurve field", "PumpCurve", true⟩,
     ⟨"STATUS_FIELD", "Status field", "Status", false⟩,
     ⟨"STARTUP_FIELD", "Startup field", "Startup", false⟩,
     ⟨"SHUTOFF_FIELD", "Shutoff field", "Shutoff", false⟩]
  else if sect = "WEIRS" then
    [⟨"NAME_FIELD", "Name field", "Name", true⟩,
     ⟨"FROM_FIELD", "FromNode field", "FromNode", true⟩,
     ⟨"TO_FIELD", "ToNode field", "ToNode", true⟩,
     ⟨"TYPE_FIELD", "Type field", "Type", true⟩,
     ⟨"CREST_FIELD", "CrestHeigh field", "CrestHeigh", false⟩,
     ⟨"QCOEFF_FIELD", "Qcoeff field", "Qcoeff", false⟩,
     ⟨"FLAP_FIELD", "FlapGate field", "FlapGate", false⟩,
     ⟨"ENDCONTR_FIELD", "EndContrac field", "EndContrac", false⟩,
     ⟨"ENDCOEFF_FIELD", "EndCoeff field", "EndCoeff", false⟩,
     ⟨"SURCH_FIELD", "Surcharge field", "Surcharge", false⟩,
     ⟨"ROADWIDTH_FIELD", "RoadWidth field", "RoadWidth", false⟩,
     ⟨"ROADSURF_FIELD", "RoadSurf field", "RoadSurf", false⟩,
     ⟨"COEFFCURVE_FIELD", "CoeffCurve field", "CoeffCurve", false⟩,
     ⟨"HEIGHT_FIELD", "Height field", "Height", false⟩,
     ⟨"LENGTH_FIELD", "Length field", "Length", false⟩,
     ⟨"SIDESLOPE_FIELD", "SideSlope field", "SideSlope", false⟩]
  else []

/-- The per-slot resolution applied inside the field-map loop (lines
99-102): an empty operator choice auto-binds to a layer field that is
exactly (case-sensitively) named like the target field, else the choice
stands (possibly still empty, i.e. unset). -/
def resolveChoice (choice target : String) (layerFieldNames : List String) : String :=
  if choice = "" ∧ target ∈ layerFieldNames then target else choice

/-- The `field_map` construction of `processAlgorithm` (lines 96-103):
for each field param, read the operator's chosen source field name (empty
string when unset) and resolve it.  Modelled as an association list keyed
by target field, as the Python dict is. -/
def buildFieldMap (fieldParams : List FieldParam) (choices : String → String)
    (layerFieldNames : List String) : List (String × String) :=
  fieldParams.map (fun fp =>
    (fp.targetField, resolveChoice (choices fp.paramId) fp.targetField layerFieldNames))

/-- The loop body of `processAlgorithm` for one feature (lines 133-139):
the attribute list is built over `target_fields_def.keys()` in schema
order, each entry via `_value_from_feature(feature, field_map.get(field),
defaults.get(field))`, and the geometry is copied from the input feature. -/
def processFeature (schema : List (String × FType)) (fieldMap : List (String × String))
    (defaults : List (String × Value)) (f : Feature γ) : OutFeature γ :=
  { geometry := f.geometry
    attributes := schema.map (fun fld =>
      value_from_feature f (List.lookup fld.1 fieldMap)
        ((List.lookup fld.1 defaults).getD Value.null)) }

/-- The `QgsFields` built for the sink (lines 114-116): one `QgsField` per
schema entry, in schema order, typed through `type_map`. -/
def target_fields (schema : List (String × FType)) : List (String × QVarType) :=
  schema.map (fun fld => (fld.1, type_map fld.2))

/-- Modelled from the spec's words (section 4.5 steps 1-3 and the third
testable property of section 8): a selection "misses" when it is unset (no
entry, or bound to the empty string), when the named source field is absent
from the feature, or when the read value is null or the empty string.  To
be compared against the fallback behavior of `value_from_feature`. -/
def specSelectionMissing (f : Feature γ) : Option String → Bool
  | none => true
  | some fn => fn = "" ||
      match f.value fn with
      | none => true
      | some v => isMissingVal v

/-- The progress report of one loop iteration (lines 144-145):
`int((idx + 1) / total * 100)` guarded by `if total:`.  The exact value of
the true division `(idx + 1) / total * 100` truncated toward zero is
`((idx + 1) * 100) / total` in natural-number division, which is how it is
modelled; binary floating-point representation error is abstracted away. -/
def progressValue (total idx : Nat) : List Nat :=
  if total ≠ 0 then [(idx + 1) * 100 / total]
  else []

/-- The feature loop of `processAlgorithm` (lines 132-145): write the
transformed feature to the sink, then break if the host signalled
cancellation (`cancel idx` models `feedback.isCanceled()` at iteration
`idx`), else report progress and continue.  Returns the sink contents and
the emitted progress reports. -/
def runLoop (transform : Feature γ → OutFeature γ) (cancel : Nat → Bool)
    (total : Nat) : List (Feature γ) → Nat → List (OutFeature γ) × List Nat
  | [], _ => ([], [])
  | feat :: rest, idx =>
      let out := transform feat
      if cancel idx then ([out], [])
      else
        let r := runLoop transform cancel total rest (idx + 1)
        (out :: r.1, progressValue total idx ++ r.2)

/-- The ways `processAlgorithm` can abort: a raised
`QgsProcessingException` with its message, or the uncaught `KeyError` from
indexing `def_qgis_fields_dict` with an unknown section (line 105). -/
inductive RunError where
  | procException (msg : String)
  | keyError (key : String)
  deriving DecidableEq

/-- A completed run: the features written to the sink (the content behind
the returned `dest_id` handle) and the progress percentages reported. -/
structure RunResult (γ : Type) where
  sink : List (OutFeature γ)
  progress : List Nat
  deriving DecidableEq

/-- `processAlgorithm` (lines 90-147), in source order: require an input
layer; build the field map; look up the section schema (KeyError when
unknown); create the sink (`sinkOk` models whether `parameterAsSink`
succeeds); fetch the defaults; run the feature loop; return the output
handle. -/
def processAlgorithm (sectionKey : String) (choices : String → String)
    (inputLayer : Option (Layer γ)) (sinkOk : Bool) (cancel : Nat → Bool) :
    Except RunError (RunResult γ) :=
  match inputLayer with
  | none => .error (.procException "Input layer is required.")
  | some layer =>
      let fieldMap := buildFieldMap (field_definitions sectionKey) choices layer.fieldNames
      match def_qgis_fields_dict sectionKey with
      | none => .error (.keyError sectionKey)
      | some schema =>
          if sinkOk then
            let defaults := defaults_for_section sectionKey
            let total := layer.features.length
            let r := runLoop (processFeature schema fieldMap defaults) cancel total
              layer.features 0
            .ok ⟨r.1, r.2⟩
          else .error (.procException "Could not create output sink.")

/-- Key membership in an association list is success of `List.lookup`. -/
theorem lookup_isSome_iff_mem_keys {β : Type} (k : String) (l : List (String × β)) :
    (List.lookup k l).isSome ↔ k ∈ l.map Prod.fst := by
  induction l with
  | nil => simp [List.lookup]
  | cons a l ih =>
      cases a with
      | mk ka vb =>
          by_cases h : k = ka
          · have hb : (k == ka) = true := by simpa using h
            simp [List.lookup, hb, h]
          · have hb : (k == ka) = false := by simpa using h
            simp [List.lookup, hb, List.mem_cons, h, ih]

/-- The membership test of `_value_from_feature` succeeds exactly when the
feature lookup does. -/
theorem value_isSome_iff_mem_names (f : Feature γ) (fn : String) :
    (f.value fn).isSome ↔ fn ∈ f.names :=
  lookup_isSome_iff_mem_keys fn f.fields

/-- A selection that misses (in the sense of `specSelectionMissing`) always
falls back to the supplied default value. -/
theorem value_from_feature_of_missing (f : Feature γ) (sel : Option String) (d : Value)
    (h : specSelectionMissing f sel = true) : value_from_feature f sel d = d := by
  cases sel with
  | none => rfl
  | some fn =>
      by_cases hfn : fn = ""
      · simp [value_from_feature, hfn]
      · simp only [specSelectionMissing, Bool.or_eq_true, decide_eq_true_eq] at h
        cases hval : f.value fn with
        | none =>
            have hnm : ¬ fn ∈ f.names := by
              rw [← value_isSome_iff_mem_names]
              simp [hval]
            simp [value_from_feature, hnm]
        | some v =>
            rw [hval] at h
            have hmiss : isMissingVal v = true := by
              rcases h with h | h
              · exact absurd h hfn
              · exact h
            simp [value_from_feature, hval, hmiss]

/-- Whatever the cancellation signal does, the loop writes a prefix of the
transformed input features, in input order. -/
theorem runLoop_sink_eq_take (transform : Feature γ → OutFeature γ) (cancel : Nat → Bool)
    (total : Nat) : ∀ (feats : List (Feature γ)) (idx : Nat),
    (runLoop transform cancel total feats idx).1
      = (feats.take (runLoop transform cancel total feats idx).1.length).map transform := by
  intro feats
  induction feats with
  | nil => intro idx; simp [runLoop]
  | cons f rest ih =>
      intro idx
      by_cases hc : cancel idx
      · simp [runLoop, hc]
      · simp only [runLoop, hc, Bool.false_eq_true, if_false]
        simp only [List.length_cons, List.take_succ_cons, List.map_cons]
        rw [← ih (idx + 1)]

/-- Under the cancellation signal that first fires at iteration index `m`
(and stays set), the loop started at `idx ≤ m` writes exactly the first
`m + 1 - idx` transformed features. -/
theorem runLoop_cancel_take (transform : Feature γ → OutFeature γ)
    (total m : Nat) : ∀ (feats : List (Feature γ)) (idx : Nat), idx ≤ m →
    (runLoop transform (fun j => decide (m ≤ j)) total feats idx).1
      = ((feats.map transform).take (m + 1 - idx)) := by
  intro feats
  induction feats with
  | nil => intro idx _; simp [runLoop]
  | cons f rest ih =>
      intro idx hidx
      by_cases hc : m ≤ idx
      · have heq : idx = m := le_antisymm hidx hc
        subst heq
        simp [runLoop, Nat.add_sub_cancel_left]
      · have hlt : idx < m := lt_of_le_of_ne hidx (fun h => hc (le_of_eq h.symm))
        have hd : (decide (m ≤ idx)) = false := by simp [hc]
        simp only [runLoop, hd, Bool.false_eq_true, if_false, List.map_cons]
        rw [ih (idx + 1) hlt]
        have hm : m + 1 - idx = (m - idx) + 1 := by omega
        rw [hm, List.take_succ_cons]
        have hm2 : m + 1 - (idx + 1) = m - idx := by omega
        rw [hm2]

/-- C1: for every section schema and every input feature, the attribute
list written to the output feature has exactly the length of the Schema
Registry field list (which is also the length of the sink's `QgsFields`),
and its entry at every position `i` is the transform of the schema's
field at position `i` — whatever the field map (however many mapping slots
were filled) and defaults are. -/
theorem attribute_list_matches_schema {γ : Type} (schema : List (String × FType))
    (fieldMap : List (String × String)) (defaults : List (String × Value))
    (f : Feature γ) :
    (processFeature schema fieldMap defaults f).attributes.length = schema.length
    ∧ (processFeature schema fieldMap defaults f).attributes.length
        = (target_fields schema).length
    ∧ ∀ (i : Nat) (fld : String × FType), schema[i]? = some fld →
        (processFeature schema fieldMap defaults f).attributes[i]? =
          some (value_from_feature f (List.lookup fld.1 fieldMap)
            ((List.lookup fld.1 defaults).getD Value.null)) := by
  refine ⟨by simp [processFeature], by simp [processFeature, target_fields], ?_⟩
  intro i fld h
  simp [processFeature, List.getElem?_map, h]

/-- C1 witness: on the JUNCTIONS schema with a single filled mapping slot,
the output feature has exactly 6 attributes and position 2 carries the
MaxDepth value. -/
theorem attribute_list_matches_schema_witness :
    (processFeature ((def_qgis_fields_dict "JUNCTIONS").getD []) [("MaxDepth", "md")] []
        (⟨[("md", .int 4)], (0 : Nat)⟩ : Feature Nat)).attributes.length = 6
    ∧ (processFeature ((def_qgis_fields_dict "JUNCTIONS").getD []) [("MaxDepth", "md")] []
        (⟨[("md", .int 4)], (0 : Nat)⟩ : Feature Nat)).attributes[2]? =
      some (value_from_feature (⟨[("md", .int 4)], (0 : Nat)⟩ : Feature Nat)
        (List.lookup "MaxDepth" [("MaxDepth", "md")])
        ((List.lookup "MaxDepth" ([] : List (String × Value))).getD Value.null)) := by
  have h := attribute_list_matches_schema ((def_qgis_fields_dict "JUNCTIONS").getD [])
    [("MaxDepth", "md")] [] (⟨[("md", .int 4)], (0 : Nat)⟩ : Feature Nat)
  exact ⟨by rw [h.1]; rfl, h.2.2 2 ("MaxDepth", FType.Double) (by rfl)⟩

/-- C2: when the selection for a target field names a source field that is
present on the feature with a value that is neither null nor the empty
string, the output attribute at that field's position is that source value
unchanged — no coercion or transformation. -/
theorem present_value_passed_through {γ : Type} (schema : List (String × FType))
    (fieldMap : List (String × String)) (defaults : List (String × Value))
    (f : Feature γ) (i : Nat) (fld : String × FType) (fn : String) (v : Value)
    (h1 : schema[i]? = some fld) (h2 : List.lookup fld.1 fieldMap = some fn)
    (h3 : fn ≠ "") (h4 : f.value fn = some v) (h5 : isMissingVal v = false) :
    (processFeature schema fieldMap defaults f).attributes[i]? = some v := by
  have hmem : fn ∈ f.names := (value_isSome_iff_mem_names f fn).1 (by simp [h4])
  simp [processFeature, List.getElem?_map, h1, value_from_feature, h2, h3, hmem, h4, h5]

/-- C2 witness: RAINGAGES with the SCF slot mapped to a source column
`scf_factor` holding 0.8 — the output SCF attribute (position 3) is 0.8. -/
theorem present_value_passed_through_witness :
    (processFeature ((def_qgis_fields_dict "RAINGAGES").getD [])
        [("SCF", "scf_factor")] (defaults_for_section "RAINGAGES")
        (⟨[("scf_factor", .real 0.8)], (0 : Nat)⟩ : Feature Nat)).attributes[3]? =
      some (.real 0.8) :=
  present_value_passed_through _ _ _ _ 3 ("SCF", FType.Double) "scf_factor" (.real 0.8)
    (by rfl) (by rfl) (by decide) (by rfl) (by rfl)

/-- C3: when the selection for a target field is unset, or the named source
field is absent from the feature, or the read value is null or the empty
string, the output attribute at that field's position is the Default
Catalog's value for that target field. -/
theorem missing_value_falls_back_to_default {γ : Type} (schema : List (String × FType))
    (fieldMap : List (String × String)) (defaults : List (String × Value))
    (f : Feature γ) (i : Nat) (fld : String × FType) (d : Value)
    (h1 : schema[i]? = some fld)
    (h2 : specSelectionMissing f (List.lookup fld.1 fieldMap) = true)
    (h3 : List.lookup fld.1 defaults = some d) :
    (processFeature schema fieldMap defaults f).attributes[i]? = some d := by
  simp [processFeature, List.getElem?_map, h1,
    value_from_feature_of_missing f _ _ h2, h3]

/-- C3 witness: RAINGAGES with the SCF slot mapped to `scf_factor` whose
value is null — the output SCF attribute is the default 1.0. -/
theorem missing_value_falls_back_to_default_witness :
    (processFeature ((def_qgis_fields_dict "RAINGAGES").getD [])
        [("SCF", "scf_factor")] (defaults_for_section "RAINGAGES")
        (⟨[("scf_factor", .null)], (0 : Nat)⟩ : Feature Nat)).attributes[3]? =
      some (.real 1.0) :=
  missing_value_falls_back_to_default _ _ _ _ 3 ("SCF", FType.Double) (.real 1.0)
    (by rfl) (by rfl) (by rfl)

/-- C4: an empty operator choice resolves by exact, case-sensitive match of
the target field name against the layer's field names — bound when found,
left unset ("") otherwise; with no explicit selections on a JUNCTIONS layer
whose fields are named exactly after the target fields, every slot
auto-binds, and the feature `{Elevation: 5.2, MaxDepth: "", InitDepth: null}`
yields the attribute list
`[Name='', Elevation=5.2, MaxDepth=0, InitDepth=0, SurDepth=0, Aponded=0]`. -/
theorem automatch_and_junctions_scenario :
    (∀ (target : String) (names : List String),
        (target ∈ names → resolveChoice "" target names = target)
        ∧ (target ∉ names → resolveChoice "" target names = ""))
    ∧ buildFieldMap (field_definitions "JUNCTIONS") (fun _ => "")
        ["Name", "Elevation", "MaxDepth", "InitDepth", "SurDepth", "Aponded"]
      = [("Name", "Name"), ("Elevation", "Elevation"), ("MaxDepth", "MaxDepth"),
         ("InitDepth", "InitDepth"), ("SurDepth", "SurDepth"), ("Aponded", "Aponded")]
    ∧ processAlgorithm "JUNCTIONS" (fun _ => "")
        (some { fieldNames := ["Name", "Elevation", "MaxDepth", "InitDepth", "SurDepth", "Aponded"]
                features := [⟨[("Elevation", .real 5.2), ("MaxDepth", .str ""),
                  ("InitDepth", .null)], (0 : Nat)⟩] })
        true (fun _ => false)
      = .ok ⟨[⟨0, [.str "", .real 5.2, .int 0, .int 0, .int 0, .int 0]⟩], [100]⟩ := by
  refine ⟨?_, by rfl, by rfl⟩
  intro target names
  constructor
  · intro h
    simp [resolveChoice, h]
  · intro h
    simp [resolveChoice, h]

/-- C4 witness: the Elevation slot auto-binds exactly when the layer has a
field named `Elevation`. -/
theorem automatch_and_junctions_scenario_witness :
    resolveChoice "" "Elevation" ["Name", "Elevation"] = "Elevation"
    ∧ resolveChoice "" "Elevation" ["Name"] = "" :=
  ⟨(automatch_and_junctions_scenario.1 "Elevation" ["Name", "Elevation"]).1 (by decide),
   (automatch_and_junctions_scenario.1 "Elevation" ["Name"]).2 (by decide)⟩

/-- C5 counterexample: with a Default Catalog lacking the entry for the
declared target field "X", the per-feature transform does not fail — it
silently substitutes null for that field, which is exactly the per-feature
runtime substitution the claim says never happens. -/
theorem missing_default_substituted_counterexample :
    (processFeature [("X", FType.Double)] [] [] (⟨[], (0 : Nat)⟩ : Feature Nat))
      = ⟨0, [Value.null]⟩ := rfl

/-- C5 amended: an unknown section name is fatal (an uncaught KeyError)
before any feature is processed; the shipped Default Catalogs do cover
every declared target field of every known section; but a Default Catalog
missing an entry is not detected anywhere — for such a field the transform
substitutes null per feature instead of raising. -/
theorem unknown_section_fatal_missing_default_silent :
    (∀ (γ : Type) (sect : String) (choices : String → String) (layer : Layer γ)
        (sinkOk : Bool) (cancel : Nat → Bool), def_qgis_fields_dict sect = none →
        processAlgorithm sect choices (some layer) sinkOk cancel = .error (.keyError sect))
    ∧ (∀ (sect : String) (schema : List (String × FType)),
        def_qgis_fields_dict sect = some schema →
        ∀ fld ∈ schema, (List.lookup fld.1 (defaults_for_section sect)).isSome)
    ∧ (∀ (γ : Type) (schema : List (String × FType)) (fieldMap : List (String × String))
        (defaults : List (String × Value)) (f : Feature γ) (i : Nat) (fld : String × FType),
        schema[i]? = some fld →
        specSelectionMissing f (List.lookup fld.1 fieldMap) = true →
        List.lookup fld.1 defaults = none →
        (processFeature schema fieldMap defaults f).attributes[i]? = some Value.null) := by
  refine ⟨?_, ?_, ?_⟩
  · intro γ sect choices layer sinkOk cancel h
    simp [processAlgorithm, h]
  · intro sect schema h
    unfold def_qgis_fields_dict at h
    split_ifs at h with h1 h2 h3 h4 h5 h6 h7 h8 h9 <;>
      (subst_vars; injection h with h; subst h; decide)
  · intro γ schema fieldMap defaults f i fld h1 h2 h3
    simp [processFeature, List.getElem?_map, h1,
      value_from_feature_of_missing f _ _ h2, h3]

/-- C5 witness: running the builder for the unknown section "VERTICES"
aborts with the KeyError before any feature is processed. -/
theorem unknown_section_fatal_missing_default_silent_witness :
    processAlgorithm "VERTICES" (fun _ => "")
        (some (⟨[], []⟩ : Layer Nat)) true (fun _ => false)
      = .error (.keyError "VERTICES") :=
  unknown_section_fatal_missing_default_silent.1 Nat "VERTICES" (fun _ => "")
    ⟨[], []⟩ true (fun _ => false) (by rfl)

/-- C6: STORAGE — the only modelled section without a bespoke default
table — takes the generic fallback policy: every field of numeric (Double)
semantic type defaults to 0 and every other field to empty text. -/
theorem storage_generic_default_policy :
    ∀ fld ∈ (def_qgis_fields_dict "STORAGE").getD [],
      List.lookup fld.1 (defaults_for_section "STORAGE")
        = some (if fld.2 = FType.Double then Value.int 0 else Value.str "") := by
  decide

/-- C6 witness: the numeric Elevation field defaults to 0 and the textual
Curve field to empty text. -/
theorem storage_generic_default_policy_witness :
    List.lookup "Elevation" (defaults_for_section "STORAGE") = some (Value.int 0)
    ∧ List.lookup "Curve" (defaults_for_section "STORAGE") = some (Value.str "") := by
  constructor
  · simpa using storage_generic_default_policy ("Elevation", FType.Double) (by decide)
  · simpa using storage_generic_default_policy ("Curve", FType.String) (by decide)

/-- C7: if the cooperative cancellation signal first fires at the check
after the k-th feature (1 ≤ k ≤ n), the run still returns the output
handle without raising, and the sink holds exactly the first k transformed
features — partial output preserved, no rollback. -/
theorem cancellation_preserves_partial_output {γ : Type} (sect : String)
    (schema : List (String × FType)) (choices : String → String) (layer : Layer γ)
    (k : Nat) (hs : def_qgis_fields_dict sect = some schema)
    (hk1 : 1 ≤ k) (hk2 : k ≤ layer.features.length) :
    ∃ r : RunResult γ,
      processAlgorithm sect choices (some layer) true (fun idx => decide (k - 1 ≤ idx)) = .ok r
      ∧ r.sink = (layer.features.take k).map
          (processFeature schema
            (buildFieldMap (field_definitions sect) choices layer.fieldNames)
            (defaults_for_section sect))
      ∧ r.sink.length = k := by
  set t := processFeature schema
    (buildFieldMap (field_definitions sect) choices layer.fieldNames)
    (defaults_for_section sect) with ht
  set c : Nat → Bool := fun idx => decide (k - 1 ≤ idx) with hc
  have hloop : (runLoop t c layer.features.length layer.features 0).1
      = (layer.features.map t).take k := by
    have h0 := runLoop_cancel_take t layer.features.length (k - 1) layer.features 0 (Nat.zero_le _)
    rw [Nat.sub_zero, Nat.sub_add_cancel hk1] at h0
    exact h0
  refine ⟨⟨(runLoop t c layer.features.length layer.features 0).1,
           (runLoop t c layer.features.length layer.features 0).2⟩, ?_, ?_, ?_⟩
  · simp [processAlgorithm, hs]
  · rw [List.map_take]
    exact hloop
  · rw [hloop]
    simp [List.length_take]
    omega

/-- C7 witness: cancellation triggered after 3 of 10 features — the run
returns ok and the sink contains exactly 3 features. -/
theorem cancellation_preserves_partial_output_witness :
    ∃ r : RunResult Nat,
      processAlgorithm "JUNCTIONS" (fun _ => "")
          (some ⟨["Elevation"], (List.range 10).map (fun i => (⟨[], i⟩ : Feature Nat))⟩)
          true (fun idx => decide (3 - 1 ≤ idx))
        = .ok r ∧ r.sink.length = 3 := by
  obtain ⟨r, h1, _, h3⟩ := cancellation_preserves_partial_output "JUNCTIONS" _ (fun _ => "")
    ⟨["Elevation"], (List.range 10).map (fun i => (⟨[], i⟩ : Feature Nat))⟩ 3
    (by rfl) (by decide) (by simp)
  exact ⟨r, h1, h3⟩

/-- C8: a missing input layer, or a sink that cannot be created, raises a
fatal error with a human-readable message before any feature is
transformed — whatever the layer's features are, so no partial output is
produced for these setup failures. -/
theorem setup_failures_abort_run :
    (∀ (γ : Type) (sect : String) (choices : String → String) (sinkOk : Bool)
        (cancel : Nat → Bool),
        processAlgorithm (γ := γ) sect choices none sinkOk cancel
          = .error (.procException "Input layer is required."))
    ∧ (∀ (γ : Type) (sect : String) (schema : List (String × FType))
        (choices : String → String) (layer : Layer γ) (cancel : Nat → Bool),
        def_qgis_fields_dict sect = some schema →
        processAlgorithm sect choices (some layer) false cancel
          = .error (.procException "Could not create output sink.")) := by
  constructor
  · intro γ sect choices sinkOk cancel
    rfl
  · intro γ sect schema choices layer cancel h
    simp [processAlgorithm, h]

/-- C8 witness: both setup failures at concrete inputs. -/
theorem setup_failures_abort_run_witness :
    processAlgorithm (γ := Nat) "JUNCTIONS" (fun _ => "") none true (fun _ => false)
      = .error (.procException "Input layer is required.")
    ∧ processAlgorithm "JUNCTIONS" (fun _ => "")
        (some (⟨["A"], [⟨[("A", .int 1)], 0⟩]⟩ : Layer Nat)) false (fun _ => false)
      = .error (.procException "Could not create output sink.") :=
  ⟨setup_failures_abort_run.1 Nat "JUNCTIONS" (fun _ => "") true (fun _ => false),
   setup_failures_abort_run.2 Nat "JUNCTIONS" _ (fun _ => "") _ (fun _ => false) (by rfl)⟩

/-- C9: the output feature's geometry is the input feature's geometry,
unmodified, whatever the attribute mapping does; consequently every run
that returns ok has sink geometries equal, in order, to the geometries of
the input features it consumed. -/
theorem geometry_copied_unmodified :
    (∀ (γ : Type) (schema : List (String × FType)) (fieldMap : List (String × String))
        (defaults : List (String × Value)) (f : Feature γ),
        (processFeature schema fieldMap defaults f).geometry = f.geometry)
    ∧ (∀ (γ : Type) (sect : String) (choices : String → String) (layer : Layer γ)
        (sinkOk : Bool) (cancel : Nat → Bool) (r : RunResult γ),
        processAlgorithm sect choices (some layer) sinkOk cancel = .ok r →
        r.sink.map OutFeature.geometry
          = (layer.features.take r.sink.length).map Feature.geometry) := by
  constructor
  · intro γ schema fieldMap defaults f
    rfl
  · intro γ sect choices layer sinkOk cancel r h
    unfold processAlgorithm at h
    cases hdict : def_qgis_fields_dict sect with
    | none =>
        rw [hdict] at h
        exact Except.noConfusion h
    | some schema =>
        rw [hdict] at h
        cases sinkOk with
        | false => exact Except.noConfusion h
        | true =>
            simp only [if_true] at h
            injection h with h
            subst h
            have hs := runLoop_sink_eq_take
              (processFeature schema
                (buildFieldMap (field_definitions sect) choices layer.fieldNames)
                (defaults_for_section sect))
              cancel layer.features.length layer.features 0
            conv_lhs => rw [hs]
            rw [List.map_map]
            rfl

/-- C9 witness: a feature with geometry 41 keeps geometry 41. -/
theorem geometry_copied_unmodified_witness :
    (processFeature ((def_qgis_fields_dict "JUNCTIONS").getD []) [] []
        (⟨[("Elevation", .int 2)], (41 : Nat)⟩ : Feature Nat)).geometry = 41 :=
  geometry_copied_unmodified.1 Nat ((def_qgis_fields_dict "JUNCTIONS").getD []) [] []
    ⟨[("Elevation", .int 2)], 41⟩

/-- C10: a run on a layer with zero features writes no features, reports no
progress (the progress expression is guarded by the feature-count check, so
the division never happens with total = 0), and still returns the output
handle without error. -/
theorem empty_layer_run_returns_ok :
    (∀ (γ : Type) (sect : String) (schema : List (String × FType))
        (choices : String → String) (names : List String) (cancel : Nat → Bool),
        def_qgis_fields_dict sect = some schema →
        processAlgorithm sect choices (some (⟨names, []⟩ : Layer γ)) true cancel
          = .ok ⟨[], []⟩)
    ∧ (∀ idx : Nat, progressValue 0 idx = []) := by
  constructor
  · intro γ sect schema choices names cancel h
    simp [processAlgorithm, h, runLoop]
  · intro idx
    simp [progressValue]

/-- C10 witness: an empty JUNCTIONS layer runs to an ok, empty result. -/
theorem empty_layer_run_returns_ok_witness :
    processAlgorithm "JUNCTIONS" (fun _ => "") (some (⟨[], []⟩ : Layer Nat)) true
        (fun _ => false)
      = .ok ⟨[], []⟩ :=
  empty_layer_run_returns_ok.1 Nat "JUNCTIONS" _ (fun _ => "") [] (fun _ => false) (by rfl)

end SwmmLayerBuilder
